import Mathlib

/-!
Shallow embedding of the attendance-tracker server (storage layer
`src/server/storage.ts` and the Express route handlers) over an explicit
database state.  Rows mirror the Postgres columns returned by the
supabase-js client (snake_case column names), timestamps are `Nat`
(epoch milliseconds), and each storage method is a pure state-passing
function.  `Date.now()` becomes an explicit `now : Nat` argument.
-/

/-- A row of the `users` table. -/
structure UserRow where
  id : Nat
  username : String
  name : String
  email : String
  role : String
  status : String
deriving Repr, DecidableEq

/-- A row of the `sessions` table, with the column names supabase returns. -/
structure SessionRow where
  id : Nat
  name : String
  date : String
  time : String
  duration : Nat
  qr_code : String
  expires_at : Nat
  is_active : Bool
  created_at : Nat
deriving Repr, DecidableEq

/-- A row of the `attendance` table, with the column names supabase returns
(`user_id`, `session_id`, `check_in_time`, `status`, `user_name`). -/
structure AttendanceRow where
  id : Nat
  user_id : Nat
  session_id : Nat
  check_in_time : Nat
  status : String
  user_name : String
deriving Repr, DecidableEq

/-- The whole database state; the serial counters model Postgres `serial`
primary keys. -/
structure DB where
  users : List UserRow
  sessions : List SessionRow
  attendance : List AttendanceRow
  nextSessionId : Nat
  nextAttendanceId : Nat
deriving Repr, DecidableEq

/-- Input of `createSession` (the parsed `insertSessionSchema` payload:
name, date, time, duration, qrCode, expiresAt).  `expiresAt` is supplied by
the caller; the storage layer does not compute it. -/
structure InsertSessionData where
  name : String
  date : String
  time : String
  duration : Nat
  qrCode : String
  expiresAt : Nat
deriving Repr, DecidableEq

/-- Input of `markAttendance` (the `insertAttendanceSchema` shape). -/
structure InsertAttendanceData where
  user_id : Nat
  session_id : Nat
  check_in_time : Nat
  status : String
  user_name : String
deriving Repr, DecidableEq

/-- `getUsersByRole`: `select().eq('role', role)` on `users`. -/
def getUsersByRole (db : DB) (role : String) : List UserRow :=
  db.users.filter (fun u => u.role == role)

/-- `getAttendanceBySession`: `select().eq('session_id', sid)` on `attendance`. -/
def getAttendanceBySession (db : DB) (sid : Nat) : List AttendanceRow :=
  db.attendance.filter (fun r => r.session_id == sid)

/-- `getAttendanceBySessionAndUser`: `.eq('session_id', sid).eq('user_id', uid).single()`;
supabase `.single()` yields an error (hence `undefined` after `data || undefined`)
unless exactly one row matches. -/
def getAttendanceBySessionAndUser (db : DB) (sid uid : Nat) : Option AttendanceRow :=
  match db.attendance.filter (fun r => r.session_id == sid && r.user_id == uid) with
  | [a] => some a
  | _ => none

/-- `markAttendance`: formats the snake_case fields and inserts a fresh row;
the insert always appends with the next serial id. -/
def markAttendance (db : DB) (a : InsertAttendanceData) : AttendanceRow × DB :=
  let row : AttendanceRow :=
    { id := db.nextAttendanceId
      user_id := a.user_id
      session_id := a.session_id
      check_in_time := a.check_in_time
      status := a.status
      user_name := a.user_name }
  (row, { db with attendance := db.attendance ++ [row]
                  nextAttendanceId := db.nextAttendanceId + 1 })

/-- The bulk `update (\x7b is_active: false \x7d).in('id', ids)` used by
`deactivateAllSessions` and the targeted `.eq('id', id)` update of
`expireSession`: sets `is_active := false` on every row whose id matches. -/
def setInactive (l : List SessionRow) (id : Nat) : List SessionRow :=
  l.map (fun s => if s.id == id then { s with is_active := false } else s)

/-- `deactivateAllSessions`: fetch the ids of all rows with `is_active = true`;
if none, return early; otherwise bulk-update exactly those ids to inactive. -/
def deactivateAllSessions (db : DB) : DB :=
  let activeIds := (db.sessions.filter (fun s => s.is_active)).map (fun s => s.id)
  if activeIds.isEmpty then db
  else
    { db with sessions :=
        db.sessions.map (fun s =>
          if activeIds.contains s.id then { s with is_active := false } else s) }

/-- `createSession`: deactivate every active session, then insert the new row
with `is_active := true`, `created_at := now` and `expires_at` taken from the
caller-supplied spec (the code reads `session.expiresAt || session.expires_at`);
returns the created row. -/
def createSession (db : DB) (now : Nat) (spec : InsertSessionData) :
    SessionRow × DB :=
  let db1 := deactivateAllSessions db
  let row : SessionRow :=
    { id := db1.nextSessionId
      name := spec.name
      date := spec.date
      time := spec.time
      duration := spec.duration
      qr_code := spec.qrCode
      expires_at := spec.expiresAt
      is_active := true
      created_at := now }
  (row, { db1 with sessions := db1.sessions ++ [row]
                   nextSessionId := db1.nextSessionId + 1 })

/-- Body of `expireSession` up to the `catch`: select the row by id
(`.single()` errors when absent, and the code then returns false); then run
the `is_active := false` update, whose persistence failure is modelled by the
`updateErr` flag and raises (`throw error`). -/
def expireSessionTry (db : DB) (id : Nat) (updateErr : Bool) :
    Except String (Bool × DB) :=
  match db.sessions.find? (fun s => s.id == id) with
  | none => Except.ok (false, db)
  | some _ =>
    if updateErr then Except.error "persistence error during update"
    else Except.ok (true, { db with sessions := setInactive db.sessions id })

/-- `expireSession`: the whole body is wrapped in `try ... catch`, and the
`catch` logs and returns `false`, so no error ever escapes to the caller. -/
def expireSession (db : DB) (id : Nat) (updateErr : Bool) : Bool × DB :=
  match expireSessionTry db id updateErr with
  | Except.ok r => r
  | Except.error _ => (false, db)

/-- `getSession`: select by id; when absent, return undefined.  When the row
is active and `now` is past `expires_at`, lazily expire it and return the row
itself with `is_active` forced to false. -/
def getSession (db : DB) (now : Nat) (id : Nat) : Option SessionRow × DB :=
  match db.sessions.find? (fun s => s.id == id) with
  | none => (none, db)
  | some data =>
    if now > data.expires_at ∧ data.is_active = true then
      let r := expireSession db data.id false
      (some { data with is_active := false }, r.2)
    else (some data, db)

/-- Comparator underlying the `order('created_at', descending)` clause:
of two rows, the one created later (the earlier operand on ties). -/
def laterOf (a b : SessionRow) : SessionRow :=
  if a.created_at < b.created_at then b else a

/-- The `order('created_at', descending).limit(1).single()` read of
`getActiveSession`: the first row of the list sorted by `created_at`
descending, i.e. a row with maximal `created_at` (first such row on ties). -/
def pickLatest : List SessionRow → Option SessionRow
  | [] => none
  | x :: xs => some (xs.foldl laterOf x)

/-- `getActiveSession`: fetch the most recently created row with
`is_active = true` (none yields the PGRST116 path and undefined); when `now`
is past its `expires_at`, lazily expire it and return undefined. -/
def getActiveSession (db : DB) (now : Nat) : Option SessionRow × DB :=
  match pickLatest (db.sessions.filter (fun s => s.is_active)) with
  | none => (none, db)
  | some data =>
    if now > data.expires_at then
      let r := expireSession db data.id false
      (none, r.2)
    else (some data, db)

/-- Outcome of the `PUT /api/sessions/:id/expire` handler. -/
inductive ExpireRouteResult where
  | notFound
  | ok (absentCount : Nat)
deriving Repr, DecidableEq

/-- The `absent` record the expire handler builds for one student. -/
def mkAbsentRecord (now sid : Nat) (s : UserRow) : InsertAttendanceData :=
  { user_id := s.id
    session_id := sid
    check_in_time := now
    status := "absent"
    user_name := s.name }

/-- The handler's `for (const student of absentStudents) await markAttendance`. -/
def insertAbsents (db : DB) (now sid : Nat) (l : List UserRow) : DB :=
  l.foldl (fun d s => (markAttendance d (mkAbsentRecord now sid s)).2) db

/-- `PUT /api/sessions/:id/expire` handler: read the session (404 when
absent), fetch the students, fetch the session's attendance rows, derive the
absent students as those whose id is not among the recorded `user_id`s,
insert an `absent` row for each, then call `expireSession`. -/
def expireSessionRoute (db : DB) (now : Nat) (sessionId : Nat) :
    ExpireRouteResult × DB :=
  let g := getSession db now sessionId
  let db1 := g.2
  match g.1 with
  | none => (ExpireRouteResult.notFound, db1)
  | some _ =>
    let students := getUsersByRole db1 "student"
    let attendanceRecords := getAttendanceBySession db1 sessionId
    let presentIds := attendanceRecords.map (fun r => r.user_id)
    let absentStudents := students.filter (fun s => !(presentIds.contains s.id))
    let db2 := insertAbsents db1 now sessionId absentStudents
    let r := expireSession db2 sessionId false
    (ExpireRouteResult.ok absentStudents.length, r.2)

/-- Outcome of the `POST /api/attendance` handler. -/
inductive PostAttendanceResult where
  | notFound
  | notActive
  | expired
  | conflict
  | created (row : AttendanceRow)
deriving Repr, DecidableEq

/-- Request body of `POST /api/attendance` (sessionId, optional `manual`
flag and explicit `userId` for the admin on-behalf path). -/
structure AttendanceBody where
  sessionId : Nat
  manual : Bool
  userId : Nat
deriving Repr, DecidableEq

/-- `POST /api/attendance` handler: 404 when the session is missing, 400 when
inactive or past expiry (the latter also lazily expires), 409 when the
authenticated caller already has a row for the session — the duplicate check
queries (sessionId, caller.id) — and otherwise inserts a `present` row whose
`user_id` is `body.userId` when `manual` is set by an admin, else the
caller's id. -/
def postAttendanceRoute (db : DB) (now : Nat) (caller : UserRow)
    (body : AttendanceBody) : PostAttendanceResult × DB :=
  let g := getSession db now body.sessionId
  let db1 := g.2
  match g.1 with
  | none => (PostAttendanceResult.notFound, db1)
  | some session =>
    if session.is_active = false then (PostAttendanceResult.notActive, db1)
    else if now > session.expires_at then
      let r := expireSession db1 body.sessionId false
      (PostAttendanceResult.expired, r.2)
    else
      match getAttendanceBySessionAndUser db1 body.sessionId caller.id with
      | some _ => (PostAttendanceResult.conflict, db1)
      | none =>
        let uid := if body.manual && caller.role == "admin" then body.userId
                   else caller.id
        let r := markAttendance db1
          { user_id := uid
            session_id := body.sessionId
            check_in_time := now
            status := "present"
            user_name := caller.name }
        (PostAttendanceResult.created r.1, r.2)

/-- The JavaScript property access `record.userId` performed by the
`GET /api/attendance/session/:id` handler.  The attendance rows returned by
the storage layer carry the Postgres column `user_id` (the same file's expire
handler reads `record.user_id`), so the property named `userId` is absent
and the access evaluates to `undefined`. -/
def jsUserIdProp (_ : AttendanceRow) : Option Nat := none

/-- JavaScript strict equality between a possibly-`undefined` number and a
number: `undefined === n` is false. -/
def strictEqNat : Option Nat → Nat → Bool
  | some v, n => v == n
  | none, _ => false

/-- `GET /api/attendance/session/:id` handler: fetch the session's rows; an
admin caller gets them all; otherwise the handler keeps the rows whose
`userId` property strictly equals the caller's id. -/
def getSessionAttendanceRoute (db : DB) (caller : UserRow) (sessionId : Nat) :
    List AttendanceRow :=
  let records := getAttendanceBySession db sessionId
  if caller.role == "admin" then records
  else records.filter (fun r => strictEqNat (jsUserIdProp r) caller.id)

/-- Number of rows with `is_active = true`. -/
def countActive (db : DB) : Nat :=
  db.sessions.countP (fun s => s.is_active)

/-- Number of attendance rows for a given (session, user) pair in a list. -/
def attCountL (l : List AttendanceRow) (sid uid : Nat) : Nat :=
  l.countP (fun r => r.session_id == sid && r.user_id == uid)

/-- Number of attendance rows for a given (session, user) pair. -/
def attCount (db : DB) (sid uid : Nat) : Nat :=
  attCountL db.attendance sid uid

/-- A sequence of `createSession` calls run one after another; each element
carries the call's wall-clock time and its spec. -/
def runCreates (db : DB) (calls : List (Nat × InsertSessionData)) : DB :=
  calls.foldl (fun d c => (createSession d c.1 c.2).2) db

/-- The rows inserted by the expire handler's absent loop, starting from a
given serial id. -/
def absRows (nid now sid : Nat) : List UserRow → List AttendanceRow
  | [] => []
  | u :: us =>
    { id := nid
      user_id := u.id
      session_id := sid
      check_in_time := now
      status := "absent"
      user_name := u.name } :: absRows (nid + 1) now sid us

/-- The absent students the expire handler derives from a database state:
role-student users with no attendance row for the session. -/
def absentStudentsOf (db : DB) (sid : Nat) : List UserRow :=
  (getUsersByRole db "student").filter
    (fun s => !(((getAttendanceBySession db sid).map (fun r => r.user_id)).contains s.id))

/-! ### Concrete database fixtures used by witnesses and counterexamples -/

/-- An empty database. -/
def emptyDB : DB :=
  { users := [], sessions := [], attendance := []
    nextSessionId := 1, nextAttendanceId := 1 }

/-- An admin user. -/
def uAdmin : UserRow :=
  { id := 1, username := "admin", name := "Admin"
    email := "admin@example.com", role := "admin", status := "active" }

/-- A student user with id 2. -/
def uStu2 : UserRow :=
  { id := 2, username := "stu2", name := "Student Two"
    email := "stu2@example.com", role := "student", status := "active" }

/-- A student user with id 3. -/
def uStu3 : UserRow :=
  { id := 3, username := "stu3", name := "Student Three"
    email := "stu3@example.com", role := "student", status := "active" }

/-- A student user with id 4. -/
def uStu4 : UserRow :=
  { id := 4, username := "stu4", name := "Student Four"
    email := "stu4@example.com", role := "student", status := "active" }

/-- An active session created at 100 that expires at 1000. -/
def sessActive : SessionRow :=
  { id := 1, name := "Lecture", date := "2024-01-01", time := "10:00"
    duration := 60, qr_code := "qr1", expires_at := 1000
    is_active := true, created_at := 100 }

/-- A second, older active session (created at 50, expires at 2000). -/
def sessActiveOld : SessionRow :=
  { id := 2, name := "Earlier", date := "2024-01-01", time := "09:00"
    duration := 60, qr_code := "qr2", expires_at := 2000
    is_active := true, created_at := 50 }

/-- A `present` attendance row for (session 1, user 2). -/
def row_s1_u2 : AttendanceRow :=
  { id := 1, user_id := 2, session_id := 1, check_in_time := 500
    status := "present", user_name := "Student Two" }

/-- A session-creation payload whose caller-supplied expiry is 1000. -/
def spec0 : InsertSessionData :=
  { name := "Lecture", date := "2024-01-01", time := "10:00"
    duration := 60, qrCode := "qr1", expiresAt := 1000 }

/-- Admin and one student; the student already has a `present` row. -/
def dbPair : DB :=
  { users := [uAdmin, uStu2], sessions := [sessActive]
    attendance := [row_s1_u2], nextSessionId := 2, nextAttendanceId := 2 }

/-- Admin and two students; student 2 has a row, student 3 has none. -/
def dbTrio : DB :=
  { users := [uAdmin, uStu2, uStu3], sessions := [sessActive]
    attendance := [row_s1_u2], nextSessionId := 2, nextAttendanceId := 2 }

/-- Three enrolled students of whom exactly one has a `present` record. -/
def db5 : DB :=
  { users := [uStu2, uStu3, uStu4], sessions := [sessActive]
    attendance := [row_s1_u2], nextSessionId := 2, nextAttendanceId := 2 }

/-- Two simultaneously active sessions with distinct creation times. -/
def db10 : DB :=
  { users := [], sessions := [sessActiveOld, sessActive], attendance := []
    nextSessionId := 3, nextAttendanceId := 1 }

/-- An admin manual-marking request targeting user 2 on session 1. -/
def body6 : AttendanceBody := { sessionId := 1, manual := true, userId := 2 }

/-! ### Helper lemmas about the storage operations -/

theorem expireSession_of_find_none (db : DB) (id : Nat) (e : Bool)
    (h : db.sessions.find? (fun s => s.id == id) = none) :
    expireSession db id e = (false, db) := by
  simp [expireSession, expireSessionTry, h]

theorem expireSession_found (db : DB) (id : Nat)
    (h : ∃ t ∈ db.sessions, t.id = id) :
    expireSession db id false
      = (true, { db with sessions := setInactive db.sessions id }) := by
  obtain ⟨t, ht, hid⟩ := h
  have hs : (db.sessions.find? (fun s => s.id == id)).isSome := by
    rw [List.find?_isSome]
    exact ⟨t, ht, by simp [hid]⟩
  cases hf : db.sessions.find? (fun s => s.id == id) with
  | none => rw [hf] at hs; simp at hs
  | some u => simp [expireSession, expireSessionTry, hf]

theorem expireSession_updateErr (db : DB) (id : Nat) :
    expireSession db id true = (false, db) := by
  cases hf : db.sessions.find? (fun s => s.id == id) with
  | none => simp [expireSession, expireSessionTry, hf]
  | some u => simp [expireSession, expireSessionTry, hf]

theorem expireSession_state (db : DB) (id : Nat) (e : Bool) :
    ((expireSession db id e).2).users = db.users ∧
    ((expireSession db id e).2).attendance = db.attendance ∧
    ((expireSession db id e).2).nextAttendanceId = db.nextAttendanceId := by
  cases hf : db.sessions.find? (fun s => s.id == id) with
  | none => simp [expireSession, expireSessionTry, hf]
  | some u =>
    cases e <;> simp [expireSession, expireSessionTry, hf]

theorem setInactive_id_inactive (l : List SessionRow) (id : Nat)
    (r : SessionRow) (hr : r ∈ setInactive l id) (hid : r.id = id) :
    r.is_active = false := by
  rw [setInactive, List.mem_map] at hr
  obtain ⟨s, _, hs⟩ := hr
  by_cases h : s.id = id
  · simp [h] at hs
    rw [← hs]
  · simp [h] at hs
    rw [← hs] at hid
    exact absurd hid h

theorem mem_setInactive_of_ne (l : List SessionRow) (id : Nat)
    (r : SessionRow) (hr : r ∈ l) (hne : r.id ≠ id) :
    r ∈ setInactive l id := by
  rw [setInactive, List.mem_map]
  exact ⟨r, hr, by simp [hne]⟩

theorem setInactive_idem (l : List SessionRow) (id : Nat) :
    setInactive (setInactive l id) id = setInactive l id := by
  rw [setInactive, setInactive, List.map_map]
  apply List.map_congr_left
  intro s _
  by_cases h : s.id = id <;> simp [h]

theorem exists_id_setInactive (l : List SessionRow) (id : Nat)
    (h : ∃ t ∈ l, t.id = id) : ∃ t ∈ setInactive l id, t.id = id := by
  obtain ⟨t, ht, hid⟩ := h
  by_cases ha : t.id = id
  · refine ⟨if t.id == id then { t with is_active := false } else t, ?_, ?_⟩
    · rw [setInactive, List.mem_map]; exact ⟨t, ht, rfl⟩
    · simp [ha]
  · exact absurd hid ha

theorem getSession_state (db : DB) (now id : Nat) :
    ((getSession db now id).2).users = db.users ∧
    ((getSession db now id).2).attendance = db.attendance ∧
    ((getSession db now id).2).nextAttendanceId = db.nextAttendanceId := by
  cases hf : db.sessions.find? (fun s => s.id == id) with
  | none => simp [getSession, hf]
  | some u =>
    by_cases hc : now > u.expires_at ∧ u.is_active = true
    · simp only [getSession, hf, if_pos hc]
      exact expireSession_state db u.id false
    · simp [getSession, hf, if_neg hc]

theorem getSession_fst_none (db : DB) (now id : Nat)
    (h : db.sessions.find? (fun s => s.id == id) = none) :
    getSession db now id = (none, db) := by
  simp [getSession, h]

theorem getSession_fst_isSome (db : DB) (now id : Nat)
    (h : (db.sessions.find? (fun s => s.id == id)).isSome) :
    ((getSession db now id).1).isSome := by
  cases hf : db.sessions.find? (fun s => s.id == id) with
  | none => rw [hf] at h; simp at h
  | some u =>
    by_cases hc : now > u.expires_at ∧ u.is_active = true
    · simp [getSession, hf, if_pos hc]
    · simp [getSession, hf, if_neg hc]

theorem getActiveSession_state (db : DB) (now : Nat) :
    ((getActiveSession db now).2).users = db.users ∧
    ((getActiveSession db now).2).attendance = db.attendance ∧
    ((getActiveSession db now).2).nextAttendanceId = db.nextAttendanceId := by
  cases hf : pickLatest (db.sessions.filter (fun s => s.is_active)) with
  | none => simp [getActiveSession, hf]
  | some u =>
    by_cases hc : now > u.expires_at
    · simp only [getActiveSession, hf, if_pos hc]
      exact expireSession_state db u.id false
    · simp [getActiveSession, hf, if_neg hc]

theorem foldl_laterOf_mem (xs : List SessionRow) (x : SessionRow) :
    xs.foldl laterOf x ∈ x :: xs := by
  induction xs generalizing x with
  | nil => simp
  | cons b xs ih =>
    have h := ih (laterOf x b)
    rw [List.foldl_cons]
    rcases List.mem_cons.mp h with h1 | h1
    · rw [h1]
      unfold laterOf
      by_cases hc : x.created_at < b.created_at <;> simp [hc]
    · simp [h1]

theorem foldl_laterOf_ge (xs : List SessionRow) (x : SessionRow) :
    ∀ y ∈ x :: xs, y.created_at ≤ (xs.foldl laterOf x).created_at := by
  induction xs generalizing x with
  | nil =>
    intro y hy
    rw [List.foldl_nil]
    simp at hy
    rw [hy]
  | cons b xs ih =>
    intro y hy
    rw [List.foldl_cons]
    have hxle : x.created_at ≤ (laterOf x b).created_at := by
      unfold laterOf
      by_cases hc : x.created_at < b.created_at <;> simp [hc]
      exact Nat.le_of_lt hc
    have hble : b.created_at ≤ (laterOf x b).created_at := by
      unfold laterOf
      by_cases hc : x.created_at < b.created_at <;> simp [hc]
      exact Nat.le_of_not_lt hc
    rcases List.mem_cons.mp hy with h1 | h1
    · rw [h1]
      exact le_trans hxle (ih (laterOf x b) _ (List.mem_cons_self _ _))
    · rcases List.mem_cons.mp h1 with h2 | h2
      · rw [h2]
        exact le_trans hble (ih (laterOf x b) _ (List.mem_cons_self _ _))
      · exact ih (laterOf x b) y (List.mem_cons_of_mem _ h2)

theorem pickLatest_mem (l : List SessionRow) (s : SessionRow)
    (h : pickLatest l = some s) : s ∈ l := by
  cases l with
  | nil => simp [pickLatest] at h
  | cons x xs =>
    rw [pickLatest] at h
    have := foldl_laterOf_mem xs x
    rw [Option.some_inj] at h
    rw [← h]
    exact this

theorem pickLatest_eq_of_unique_max (l : List SessionRow) (s : SessionRow)
    (hmem : s ∈ l)
    (hmax : ∀ r ∈ l, r ≠ s → r.created_at < s.created_at) :
    pickLatest l = some s := by
  cases l with
  | nil => simp at hmem
  | cons x xs =>
    rw [pickLatest]
    have hrmem := foldl_laterOf_mem xs x
    by_cases he : xs.foldl laterOf x = s
    · rw [he]
    · have hlt := hmax _ hrmem he
      have hge := foldl_laterOf_ge xs x s hmem
      exact absurd (lt_of_lt_of_le hlt hge) (lt_irrefl _)

theorem countActive_deactivateAll (db : DB) :
    countActive (deactivateAllSessions db) = 0 := by
  unfold countActive deactivateAllSessions
  by_cases he :
      ((db.sessions.filter (fun s => s.is_active)).map (fun s => s.id)).isEmpty
  · rw [if_pos he]
    rw [List.isEmpty_iff, List.map_eq_nil_iff, List.filter_eq_nil_iff] at he
    rw [List.countP_eq_zero]
    intro a ha
    simpa using he a ha
  · rw [if_neg he]
    rw [List.countP_eq_zero]
    intro a ha
    rw [List.mem_map] at ha
    obtain ⟨t, ht, hta⟩ := ha
    by_cases hc :
        ((db.sessions.filter (fun s => s.is_active)).map (fun s => s.id)).contains t.id
    · rw [if_pos hc] at hta
      rw [← hta]
      simp
    · rw [if_neg hc] at hta
      rw [← hta]
      intro hact
      apply hc
      have : t.id ∈ (db.sessions.filter (fun s => s.is_active)).map (fun s => s.id) :=
        List.mem_map.mpr ⟨t, List.mem_filter.mpr ⟨ht, hact⟩, rfl⟩
      simpa using this

theorem countActive_createSession (db : DB) (now : Nat)
    (spec : InsertSessionData) :
    countActive (createSession db now spec).2 = 1 := by
  have h0 := countActive_deactivateAll db
  unfold countActive at h0 ⊢
  simp only [createSession, List.countP_append, h0]
  simp [List.countP_cons]

theorem markAttendance_state (db : DB) (a : InsertAttendanceData) :
    ((markAttendance db a).2).users = db.users ∧
    ((markAttendance db a).2).sessions = db.sessions ∧
    ((markAttendance db a).2).attendance
      = db.attendance ++ [(markAttendance db a).1] ∧
    ((markAttendance db a).2).nextAttendanceId = db.nextAttendanceId + 1 := by
  simp [markAttendance]

theorem insertAbsents_users (l : List UserRow) (db : DB) (now sid : Nat) :
    (insertAbsents db now sid l).users = db.users := by
  induction l generalizing db with
  | nil => rfl
  | cons u us ih =>
    rw [insertAbsents, List.foldl_cons]
    exact ih _

theorem insertAbsents_sessions (l : List UserRow) (db : DB) (now sid : Nat) :
    (insertAbsents db now sid l).sessions = db.sessions := by
  induction l generalizing db with
  | nil => rfl
  | cons u us ih =>
    rw [insertAbsents, List.foldl_cons]
    exact ih _

theorem insertAbsents_attendance (l : List UserRow) (db : DB) (now sid : Nat) :
    (insertAbsents db now sid l).attendance
      = db.attendance ++ absRows db.nextAttendanceId now sid l := by
  induction l generalizing db with
  | nil => simp [insertAbsents, absRows]
  | cons u us ih =>
    rw [insertAbsents, List.foldl_cons]
    have step := ih ((markAttendance db (mkAbsentRecord now sid u)).2)
    rw [insertAbsents] at step
    rw [step]
    simp [markAttendance, mkAbsentRecord, absRows, List.append_assoc]

theorem attCountL_absRows (l : List UserRow) (nid now sid uid : Nat) :
    attCountL (absRows nid now sid l) sid uid
      = l.countP (fun s => s.id == uid) := by
  induction l generalizing nid with
  | nil => simp [absRows, attCountL]
  | cons u us ih =>
    simp only [absRows, attCountL, List.countP_cons] at ih ⊢
    rw [ih (nid + 1)]
    simp

theorem mem_absRows (l : List UserRow) (nid now sid : Nat)
    (r : AttendanceRow) (hr : r ∈ absRows nid now sid l) :
    ∃ u ∈ l, r.user_id = u.id ∧ r.session_id = sid ∧
      r.status = "absent" ∧ r.check_in_time = now := by
  induction l generalizing nid with
  | nil => simp [absRows] at hr
  | cons u us ih =>
    rw [absRows] at hr
    rcases List.mem_cons.mp hr with h1 | h1
    · exact ⟨u, List.mem_cons_self _ _, by rw [h1], by rw [h1], by rw [h1], by rw [h1]⟩
    · obtain ⟨v, hv, hrest⟩ := ih (nid + 1) h1
      exact ⟨v, List.mem_cons_of_mem _ hv, hrest⟩

theorem countP_map_le_one_of_nodup {α : Type} (l : List α) (f : α → Nat)
    (hnd : (l.map f).Nodup) (x : Nat) :
    l.countP (fun a => f a == x) ≤ 1 := by
  induction l with
  | nil => simp
  | cons a l ih =>
    rw [List.map_cons, List.nodup_cons] at hnd
    obtain ⟨hna, hnd'⟩ := hnd
    rw [List.countP_cons]
    by_cases hfa : f a == x
    · have h0 : l.countP (fun b => f b == x) = 0 := by
        rw [List.countP_eq_zero]
        intro b hb hbx
        apply hna
        rw [List.mem_map]
        have hx : f a = x := by simpa using hfa
        have hbx' : f b = x := by simpa using hbx
        exact ⟨b, hb, by rw [hbx', hx]⟩
      simp [hfa, h0]
    · simp only [hfa]
      simpa using ih hnd'

theorem expireSessionRoute_attendance (db : DB) (now sid : Nat)
    (hfound : (db.sessions.find? (fun s => s.id == sid)).isSome) :
    ((expireSessionRoute db now sid).2).attendance
      = db.attendance ++ absRows db.nextAttendanceId now sid (absentStudentsOf db sid) := by
  obtain ⟨hu, ha, hn⟩ := getSession_state db now sid
  have hg := getSession_fst_isSome db now sid hfound
  cases hg2 : (getSession db now sid).1 with
  | none => rw [hg2] at hg; simp at hg
  | some u =>
    simp only [expireSessionRoute, hg2]
    rw [(expireSession_state _ _ _).2.1]
    rw [insertAbsents_attendance]
    simp only [absentStudentsOf, getUsersByRole, getAttendanceBySession, hu, ha, hn]

/-! ### Claim theorems -/

/-- C1: for every sequence of `createSession` calls executed one after
another, at most one session row has `is_active = true` after each call
completes — each call first bulk-deactivates every active row and only then
inserts the new active row, so the state after the k-th call of any sequence
(an instance of this statement with the length-k prefix) has at most one
active session. -/
theorem c1_single_active_after_creates
    (calls : List (Nat × InsertSessionData)) (db : DB) (h : calls ≠ []) :
    countActive (runCreates db calls) ≤ 1 := by
  induction calls generalizing db with
  | nil => exact absurd rfl h
  | cons c rest ih =>
    rw [runCreates, List.foldl_cons]
    cases rest with
    | nil =>
      rw [List.foldl_nil]
      rw [countActive_createSession]
    | cons d ds =>
      exact ih _ (List.cons_ne_nil _ _)

/-- Witness for C1 at a concrete one-call sequence. -/
theorem c1_single_active_after_creates_witness :
    countActive (runCreates emptyDB [(0, spec0)]) ≤ 1 :=
  c1_single_active_after_creates [(0, spec0)] emptyDB (List.cons_ne_nil _ _)

/-- C3, counterexample: `createSession` does not compute the expiry; it
passes through the caller-supplied `expiresAt`.  Here the created row has
`created_at = 1000000` and `duration = 60` yet `expires_at = 1000`, which is
not the creation time plus the duration under any unit (minutes as
milliseconds, as seconds, or raw). -/
theorem c3_counterexample :
    ((createSession emptyDB 1000000 spec0).1).expires_at = 1000 ∧
    ((createSession emptyDB 1000000 spec0).1).created_at = 1000000 ∧
    ((createSession emptyDB 1000000 spec0).1).duration = 60 ∧
    1000 ≠ 1000000 + 60 * 60000 ∧
    1000 ≠ 1000000 + 60 * 1000 ∧
    1000 ≠ 1000000 + 60 * 60 ∧
    1000 ≠ 1000000 + 60 := by
  decide

/-- C3, amended: `createSession(spec)` inserts the new session row with
`is_active = true`, `created_at` set to the creation time, and `expires_at`
taken unchanged from the caller-supplied `expiresAt` of the spec (not
computed as creation time + duration), and returns the created row. -/
theorem c3_createSession_inserts (db : DB) (now : Nat)
    (spec : InsertSessionData) :
    ((createSession db now spec).1).is_active = true ∧
    ((createSession db now spec).1).expires_at = spec.expiresAt ∧
    ((createSession db now spec).1).created_at = now ∧
    ((createSession db now spec).1).duration = spec.duration ∧
    ((createSession db now spec).1).name = spec.name ∧
    ((createSession db now spec).1).qr_code = spec.qrCode ∧
    (createSession db now spec).1 ∈ ((createSession db now spec).2).sessions := by
  refine ⟨rfl, rfl, rfl, rfl, rfl, rfl, ?_⟩
  simp [createSession]

/-- C4: `getActiveSession` returns "not found" when no session is active;
and when the most recent active session is past its `expires_at`, the read
deactivates it (the session row is marked inactive in the resulting state,
exactly the `expireSession` update) and returns "not found" instead of the
stale row. -/
theorem c4_getActiveSession_not_found (db : DB) (now : Nat) :
    ((∀ s ∈ db.sessions, s.is_active = false) →
      getActiveSession db now = (none, db)) ∧
    (∀ s, pickLatest (db.sessions.filter (fun t => t.is_active)) = some s →
      now > s.expires_at →
      (getActiveSession db now).1 = none ∧
      (getActiveSession db now).2
        = { db with sessions := setInactive db.sessions s.id } ∧
      ∀ r ∈ ((getActiveSession db now).2).sessions,
        r.id = s.id → r.is_active = false) := by
  constructor
  · intro h
    have hnil : db.sessions.filter (fun t => t.is_active) = [] := by
      rw [List.filter_eq_nil_iff]
      intro a ha
      simp [h a ha]
    simp [getActiveSession, hnil, pickLatest]
  · intro s hp hn
    have hsmem := pickLatest_mem _ _ hp
    rw [List.mem_filter] at hsmem
    have hexp := expireSession_found db s.id ⟨s, hsmem.1, rfl⟩
    simp only [getActiveSession, hp, if_pos hn, hexp]
    refine ⟨by trivial, by trivial, ?_⟩
    intro r hr hrid
    exact setInactive_id_inactive _ _ r hr hrid

/-- Witness for C4: an empty store yields "not found", and a store whose
only (most recent) active session is past expiry yields "not found" while
deactivating that row. -/
theorem c4_getActiveSession_not_found_witness :
    getActiveSession emptyDB 5 = (none, emptyDB) ∧
    (getActiveSession dbTrio 1500).1 = none ∧
    (getActiveSession dbTrio 1500).2
      = { dbTrio with sessions := setInactive dbTrio.sessions 1 } :=
  ⟨(c4_getActiveSession_not_found emptyDB 5).1 (by decide),
   ((c4_getActiveSession_not_found dbTrio 1500).2 sessActive (by decide)
     (by decide)).1,
   ((c4_getActiveSession_not_found dbTrio 1500).2 sessActive (by decide)
     (by decide)).2.1⟩

/-- C7: `getSession(id)` returns "not found" for a nonexistent id; for an
`is_active` session whose `expires_at` is in the past it deactivates the row
(the `expireSession` update on the stored state) and returns the row itself
with `is_active = false` rather than "not found". -/
theorem c7_getSession_lazy (db : DB) (now id : Nat) :
    (db.sessions.find? (fun s => s.id == id) = none →
      getSession db now id = (none, db)) ∧
    (∀ s, db.sessions.find? (fun t => t.id == id) = some s →
      s.is_active = true → now > s.expires_at →
      (getSession db now id).1 = some { s with is_active := false } ∧
      (getSession db now id).2
        = { db with sessions := setInactive db.sessions s.id }) := by
  constructor
  · intro h
    exact getSession_fst_none db now id h
  · intro s hf hact hn
    have hexp := expireSession_found db s.id
      ⟨s, List.mem_of_find?_eq_some hf, rfl⟩
    simp only [getSession, hf, if_pos (And.intro hn hact), hexp]
    exact ⟨by trivial, by trivial⟩

/-- Witness for C7: a nonexistent id yields "not found"; the expired active
session with id 1 is returned with `is_active = false` and deactivated in
the store. -/
theorem c7_getSession_lazy_witness :
    getSession dbTrio 1500 99 = (none, dbTrio) ∧
    (getSession dbTrio 1500 1).1 = some { sessActive with is_active := false } ∧
    (getSession dbTrio 1500 1).2
      = { dbTrio with sessions := setInactive dbTrio.sessions 1 } :=
  ⟨(c7_getSession_lazy dbTrio 1500 99).1 (by decide),
   ((c7_getSession_lazy dbTrio 1500 1).2 sessActive (by decide) (by decide)
     (by decide)).1,
   ((c7_getSession_lazy dbTrio 1500 1).2 sessActive (by decide) (by decide)
     (by decide)).2⟩

/-- C2, counterexample: `expireSession` succeeds on session 1 while student 3
has no attendance record for it, yet no `absent` row is inserted — the
attendance table still has no row for user 3, refuting the claim that every
`expireSession` call runs the absentee close-out. -/
theorem c2_counterexample :
    uStu3 ∈ dbTrio.users ∧ uStu3.role = "student" ∧
    attCountL dbTrio.attendance 1 uStu3.id = 0 ∧
    (expireSession dbTrio 1 false).1 = true ∧
    attCountL ((expireSession dbTrio 1 false).2).attendance 1 uStu3.id = 0 := by
  decide

/-- C2, amended: the absentee close-out does not live in `expireSession` —
that function, as well as the lazy expirations inside `getSession` and
`getActiveSession`, never changes the attendance table; the back-fill is
performed only by the explicit `PUT /api/sessions/:id/expire` route handler,
which appends one `absent` row per role-student user lacking a record for
the session and only then calls `expireSession`. -/
theorem c2_closeout_only_in_route (db : DB) (now id sid : Nat) (e : Bool) :
    ((expireSession db id e).2).attendance = db.attendance ∧
    ((getSession db now id).2).attendance = db.attendance ∧
    ((getActiveSession db now).2).attendance = db.attendance ∧
    ((db.sessions.find? (fun s => s.id == sid)).isSome →
      ((expireSessionRoute db now sid).2).attendance
        = db.attendance
            ++ absRows db.nextAttendanceId now sid (absentStudentsOf db sid)) :=
  ⟨(expireSession_state db id e).2.1,
   (getSession_state db now id).2.1,
   (getActiveSession_state db now).2.1,
   fun h => expireSessionRoute_attendance db now sid h⟩

/-- Witness for C2 (amended) at a concrete store: the route handler appends
the synthesized absent rows for the students lacking a record. -/
theorem c2_closeout_only_in_route_witness :
    ((expireSessionRoute dbTrio 1500 1).2).attendance
      = dbTrio.attendance
          ++ absRows dbTrio.nextAttendanceId 1500 1 (absentStudentsOf dbTrio 1) :=
  (c2_closeout_only_in_route dbTrio 1500 1 1 false).2.2.2 (by decide)

/-- C8, counterexample: with a persistence error injected into the
`is_active` update, the inner body raises, but `expireSession` itself
returns normally with `false` and an unchanged store — the error is
swallowed by the function's own catch block, not surfaced to the caller. -/
theorem c8_counterexample :
    expireSessionTry dbTrio 1 true
      = Except.error "persistence error during update" ∧
    expireSession dbTrio 1 true = (false, dbTrio) :=
  ⟨rfl, rfl⟩

/-- C8, amended: `expireSession` is idempotent (a second call on the
already-deactivated store succeeds with the same resulting store) and
returns `false` when the session id does not exist; but a persistence error
during the `is_active` update is caught and swallowed — the call returns
`false` with the store unchanged instead of raising. -/
theorem c8_expireSession_spec (db : DB) (id : Nat) :
    (∀ s, db.sessions.find? (fun t => t.id == id) = some s →
      expireSession db id false
        = (true, { db with sessions := setInactive db.sessions id }) ∧
      expireSession { db with sessions := setInactive db.sessions id } id false
        = (true, { db with sessions := setInactive db.sessions id }) ∧
      expireSession db id true = (false, db)) ∧
    (db.sessions.find? (fun t => t.id == id) = none →
      ∀ e, expireSession db id e = (false, db)) := by
  constructor
  · intro s hf
    have hsid : s.id = id := by simpa using List.find?_some hf
    have hmem := List.mem_of_find?_eq_some hf
    have hex : ∃ t ∈ db.sessions, t.id = id := ⟨s, hmem, hsid⟩
    refine ⟨expireSession_found db id hex, ?_, expireSession_updateErr db id⟩
    have hex2 : ∃ t ∈ setInactive db.sessions id, t.id = id :=
      exists_id_setInactive db.sessions id hex
    have h2 := expireSession_found
      { db with sessions := setInactive db.sessions id } id hex2
    rw [h2]
    rw [Prod.mk.injEq]
    refine ⟨rfl, ?_⟩
    simp [setInactive_idem]
  · intro hf e
    exact expireSession_of_find_none db id e hf

/-- Witness for C8 at a concrete store with session 1 present, and at a
store where the id is absent. -/
theorem c8_expireSession_spec_witness :
    expireSession dbTrio 1 false
      = (true, { dbTrio with sessions := setInactive dbTrio.sessions 1 }) ∧
    expireSession { dbTrio with sessions := setInactive dbTrio.sessions 1 } 1 false
      = (true, { dbTrio with sessions := setInactive dbTrio.sessions 1 }) ∧
    expireSession dbTrio 1 true = (false, dbTrio) ∧
    expireSession emptyDB 1 false = (false, emptyDB) :=
  ⟨((c8_expireSession_spec dbTrio 1).1 sessActive (by decide)).1,
   ((c8_expireSession_spec dbTrio 1).1 sessActive (by decide)).2.1,
   ((c8_expireSession_spec dbTrio 1).1 sessActive (by decide)).2.2,
   (c8_expireSession_spec emptyDB 1).2 (by decide) false⟩

theorem map_nodup_inj {α : Type} (l : List α) (f : α → Nat)
    (hnd : (l.map f).Nodup) :
    ∀ a ∈ l, ∀ b ∈ l, f a = f b → a = b := by
  induction l with
  | nil => simp
  | cons x xs ih =>
    rw [List.map_cons, List.nodup_cons] at hnd
    obtain ⟨hnx, hnd2⟩ := hnd
    intro a ha b hb hab
    rcases List.mem_cons.mp ha with h1 | h1 <;>
      rcases List.mem_cons.mp hb with h2 | h2
    · rw [h1, h2]
    · exfalso
      apply hnx
      rw [List.mem_map]
      exact ⟨b, h2, by rw [← hab, h1]⟩
    · exfalso
      apply hnx
      rw [List.mem_map]
      exact ⟨a, h1, by rw [hab, h2]⟩
    · exact ih hnd2 a h1 b h2 hab

/-- C10: with several simultaneously active rows, `getActiveSession`
considers only the one with the most recent `created_at`: that row is what
the ordered limit-1 read selects, it is what gets returned (when unexpired)
or lazily expired (when past expiry), and the older active rows are neither
returned nor deactivated by the read. -/
theorem c10_getActiveSession_most_recent (db : DB) (now : Nat)
    (s : SessionRow) (hmem : s ∈ db.sessions) (hact : s.is_active = true)
    (hnodup : (db.sessions.map (fun t => t.id)).Nodup)
    (hmax : ∀ r ∈ db.sessions, r.is_active = true → r ≠ s →
      r.created_at < s.created_at) :
    pickLatest (db.sessions.filter (fun t => t.is_active)) = some s ∧
    (now > s.expires_at →
      (getActiveSession db now).1 = none ∧
      ((getActiveSession db now).2).sessions = setInactive db.sessions s.id ∧
      ∀ r ∈ db.sessions, r.is_active = true → r ≠ s →
        r ∈ ((getActiveSession db now).2).sessions) ∧
    (¬ now > s.expires_at → getActiveSession db now = (some s, db)) := by
  have hp : pickLatest (db.sessions.filter (fun t => t.is_active)) = some s := by
    apply pickLatest_eq_of_unique_max
    · exact List.mem_filter.mpr ⟨hmem, hact⟩
    · intro r hr hrs
      rw [List.mem_filter] at hr
      exact hmax r hr.1 hr.2 hrs
  have hidinj : ∀ r ∈ db.sessions, r ≠ s → r.id ≠ s.id := by
    intro r hr hrs hbad
    exact hrs (map_nodup_inj db.sessions (fun t => t.id) hnodup r hr s hmem hbad)
  refine ⟨hp, ?_, ?_⟩
  · intro hn
    have hexp := expireSession_found db s.id ⟨s, hmem, rfl⟩
    simp only [getActiveSession, hp, if_pos hn, hexp]
    refine ⟨by trivial, by trivial, ?_⟩
    intro r hr hract hrs
    exact mem_setInactive_of_ne db.sessions s.id r hr (hidinj r hr hrs)
  · intro hn
    simp only [getActiveSession, hp, if_neg hn]

/-- Witness for C10: two active sessions; the read lazily expires only the
most recently created one (id 1) and the older active row (id 2) survives
untouched. -/
theorem c10_getActiveSession_most_recent_witness :
    pickLatest (db10.sessions.filter (fun t => t.is_active)) = some sessActive ∧
    (getActiveSession db10 1500).1 = none ∧
    sessActiveOld ∈ ((getActiveSession db10 1500).2).sessions :=
  ⟨(c10_getActiveSession_most_recent db10 1500 sessActive (by decide)
      (by decide) (by decide) (by decide)).1,
   ((c10_getActiveSession_most_recent db10 1500 sessActive (by decide)
      (by decide) (by decide) (by decide)).2.1 (by decide)).1,
   ((c10_getActiveSession_most_recent db10 1500 sessActive (by decide)
      (by decide) (by decide) (by decide)).2.1 (by decide)).2.2
     sessActiveOld (by decide) (by decide) (by decide)⟩

/-- C6, counterexample: user 2 already has a committed attendance row for
session 1, yet the admin's manual request for user 2 is answered with 201
(a created row, not a 409 conflict) and a second row for (session 1, user 2)
is inserted — the duplicate check only queries the authenticated caller's
own id. -/
theorem c6_counterexample :
    attCountL dbPair.attendance 1 2 = 1 ∧
    (postAttendanceRoute dbPair 500 uAdmin body6).1
      = PostAttendanceResult.created
          { id := 2, user_id := 2, session_id := 1, check_in_time := 500
            status := "present", user_name := "Admin" } ∧
    attCountL ((postAttendanceRoute dbPair 500 uAdmin body6).2).attendance 1 2
      = 2 := by
  decide

/-- C6, amended: the duplicate check of `POST /api/attendance` is keyed on
the authenticated caller's id, not on the id the row is inserted for: when
the caller already has a row for the session the request is rejected as a
conflict and no row is inserted; but when the caller has no row, an admin
manual request inserts a `present` row for `body.userId` regardless of any
existing rows of that target user, so the (session, user) pair is not
protected on the manual path. -/
theorem c6_duplicate_check (db : DB) (now : Nat) (caller : UserRow)
    (body : AttendanceBody) (s : SessionRow)
    (hs : (getSession db now body.sessionId).1 = some s)
    (hact : s.is_active = true)
    (hexp : ¬ now > s.expires_at) :
    (∀ a, getAttendanceBySessionAndUser db body.sessionId caller.id = some a →
      (postAttendanceRoute db now caller body).1
        = PostAttendanceResult.conflict ∧
      ((postAttendanceRoute db now caller body).2).attendance
        = db.attendance) ∧
    (getAttendanceBySessionAndUser db body.sessionId caller.id = none →
      body.manual = true → caller.role = "admin" →
      ∃ row, (postAttendanceRoute db now caller body).1
          = PostAttendanceResult.created row ∧
        row.user_id = body.userId ∧ row.session_id = body.sessionId ∧
        row.status = "present" ∧ row.check_in_time = now ∧
        ((postAttendanceRoute db now caller body).2).attendance
          = db.attendance ++ [row]) := by
  obtain ⟨hu, ha, hn⟩ := getSession_state db now body.sessionId
  have hsame :
      getAttendanceBySessionAndUser ((getSession db now body.sessionId).2)
        body.sessionId caller.id
        = getAttendanceBySessionAndUser db body.sessionId caller.id := by
    simp [getAttendanceBySessionAndUser, ha]
  have hactne : ¬ s.is_active = false := by simp [hact]
  constructor
  · intro a hdup
    simp only [postAttendanceRoute, hs, if_neg hactne, if_neg hexp, hsame, hdup]
    exact ⟨by trivial, ha⟩
  · intro hnone hman hadm
    have hcond : (body.manual && (caller.role == "admin")) = true := by
      simp [hman, hadm]
    simp only [postAttendanceRoute, hs, if_neg hactne, if_neg hexp, hsame,
      hnone, hcond, if_pos]
    refine ⟨_, by trivial, rfl, rfl, rfl, rfl, ?_⟩
    simp [markAttendance, ha]

/-- Witness for C6 (amended): the caller-keyed conflict on the self path,
and the manual-path insertion for an explicit target user. -/
theorem c6_duplicate_check_witness :
    (postAttendanceRoute dbPair 500 uStu2
        { sessionId := 1, manual := false, userId := 2 }).1
      = PostAttendanceResult.conflict ∧
    ((postAttendanceRoute dbPair 500 uStu2
        { sessionId := 1, manual := false, userId := 2 }).2).attendance
      = dbPair.attendance ∧
    ∃ row, (postAttendanceRoute dbPair 500 uAdmin body6).1
        = PostAttendanceResult.created row ∧
      row.user_id = body6.userId ∧ row.session_id = body6.sessionId ∧
      row.status = "present" ∧ row.check_in_time = 500 ∧
      ((postAttendanceRoute dbPair 500 uAdmin body6).2).attendance
        = dbPair.attendance ++ [row] :=
  ⟨((c6_duplicate_check dbPair 500 uStu2
      { sessionId := 1, manual := false, userId := 2 } sessActive (by decide)
      (by decide) (by decide)).1 row_s1_u2 (by decide)).1,
   ((c6_duplicate_check dbPair 500 uStu2
      { sessionId := 1, manual := false, userId := 2 } sessActive (by decide)
      (by decide) (by decide)).1 row_s1_u2 (by decide)).2,
   (c6_duplicate_check dbPair 500 uAdmin body6 sessActive (by decide)
      (by decide) (by decide)).2 (by decide) (by decide) (by decide)⟩

/-- C9: evaluation at the failing input.  Session 1 has exactly the one
attendance row of student 2, yet the handler returns the empty list to that
very student — the filter compares the nonexistent `userId` property
(undefined) against the caller's id — while an admin caller receives the
full row set.  This contradicts the handler's own intent (its sibling
expire handler reads `record.user_id`, and the inline comment says students
get their own records). -/
theorem c9_student_rows_dropped :
    getAttendanceBySession dbPair 1 = [row_s1_u2] ∧
    row_s1_u2.user_id = uStu2.id ∧
    uStu2.role = "student" ∧
    getSessionAttendanceRoute dbPair uStu2 1 = [] ∧
    getSessionAttendanceRoute dbPair uAdmin 1 = [row_s1_u2] := by
  decide

/-- C5: after the absentee close-out performed when a session is explicitly
expired through the route handler, every role-student user has exactly one
attendance row for that session — the old row (necessarily `present`, as all
pre-close-out rows are) when one existed, otherwise a synthesized `absent`
row whose check-in time is the close-out moment.  Hypotheses: the session
exists, user ids are unique, each student had at most one row before
close-out, and all pre-existing rows of the session are `present`. -/
theorem c5_closeout_exactly_one (db : DB) (now sid : Nat)
    (hfound : (db.sessions.find? (fun s => s.id == sid)).isSome)
    (hnodup : (db.users.map (fun v => v.id)).Nodup)
    (hone : ∀ v ∈ db.users, attCount db sid v.id ≤ 1)
    (hpres : ∀ r ∈ db.attendance, r.session_id = sid → r.status = "present") :
    ∀ u ∈ db.users, u.role = "student" →
      attCountL (((expireSessionRoute db now sid).2).attendance) sid u.id = 1 ∧
      ∀ r ∈ ((expireSessionRoute db now sid).2).attendance,
        r.session_id = sid → r.user_id = u.id →
        ((r ∈ db.attendance ∧ r.status = "present") ∨
         (r.status = "absent" ∧ r.check_in_time = now ∧
          attCount db sid u.id = 0)) := by
  intro u humem hurole
  have hatt := expireSessionRoute_attendance db now sid hfound
  have hiff : ∀ w : Nat, (0 < attCount db sid w) ↔
      w ∈ (getAttendanceBySession db sid).map (fun r => r.user_id) := by
    intro w
    simp only [attCount, attCountL]
    rw [List.countP_pos_iff, List.mem_map]
    constructor
    · rintro ⟨r, hr, hpr⟩
      rw [Bool.and_eq_true] at hpr
      refine ⟨r, List.mem_filter.mpr ⟨hr, hpr.1⟩, by simpa using hpr.2⟩
    · rintro ⟨r, hr, hru⟩
      rw [getAttendanceBySession, List.mem_filter] at hr
      refine ⟨r, hr.1, ?_⟩
      rw [Bool.and_eq_true]
      exact ⟨hr.2, by simp [hru]⟩
  have hApos : attCount db sid u.id = 0 →
      (absentStudentsOf db sid).countP (fun v => v.id == u.id) = 1 := by
    intro hz
    have humemA : u ∈ absentStudentsOf db sid := by
      rw [absentStudentsOf, List.mem_filter]
      constructor
      · rw [getUsersByRole, List.mem_filter]
        exact ⟨humem, by simp [hurole]⟩
      · have hnotin :
            ¬ u.id ∈ (getAttendanceBySession db sid).map (fun r => r.user_id) := by
          intro hin
          have := (hiff u.id).mpr hin
          omega
        simpa using hnotin
    have hge : 0 < (absentStudentsOf db sid).countP (fun v => v.id == u.id) :=
      List.countP_pos_iff.mpr ⟨u, humemA, by simp⟩
    have hle : (absentStudentsOf db sid).countP (fun v => v.id == u.id) ≤ 1 := by
      have h1 : (absentStudentsOf db sid).countP (fun v => v.id == u.id)
          ≤ db.users.countP (fun v => v.id == u.id) := by
        rw [absentStudentsOf, getUsersByRole, List.countP_filter,
          List.countP_filter]
        apply List.countP_mono_left
        intro v hv h
        simp only [Bool.and_eq_true] at h
        exact h.1.1
      exact le_trans h1
        (countP_map_le_one_of_nodup db.users (fun v => v.id) hnodup u.id)
    omega
  have hAzero : attCount db sid u.id ≠ 0 →
      (absentStudentsOf db sid).countP (fun v => v.id == u.id) = 0 := by
    intro hnz
    rw [List.countP_eq_zero]
    intro v hv hvid
    rw [absentStudentsOf, List.mem_filter] at hv
    have hvid2 : v.id = u.id := by simpa using hvid
    have hin : u.id ∈ (getAttendanceBySession db sid).map (fun r => r.user_id) := by
      apply (hiff u.id).mp
      omega
    have hv2 := hv.2
    rw [hvid2] at hv2
    simp [hin] at hv2
  constructor
  · rw [hatt]
    simp only [attCountL, List.countP_append]
    have h2 := attCountL_absRows (absentStudentsOf db sid)
      db.nextAttendanceId now sid u.id
    simp only [attCountL] at h2
    rw [h2]
    by_cases hz : attCount db sid u.id = 0
    · have h0 : db.attendance.countP
          (fun r => r.session_id == sid && r.user_id == u.id) = 0 := hz
      rw [hApos hz]
      omega
    · have h1 : attCount db sid u.id = 1 := by
        have := hone u humem
        omega
      have h0 : db.attendance.countP
          (fun r => r.session_id == sid && r.user_id == u.id) = 1 := h1
      rw [hAzero hz]
      omega
  · intro r hr hrs hru
    rw [hatt] at hr
    rcases List.mem_append.mp hr with hold | hnew
    · exact Or.inl ⟨hold, hpres r hold hrs⟩
    · obtain ⟨v, hv, hv1, hv2, hv3, hv4⟩ := mem_absRows _ _ _ _ r hnew
      refine Or.inr ⟨hv3, hv4, ?_⟩
      rw [absentStudentsOf, List.mem_filter] at hv
      have hvid : v.id = u.id := by rw [← hv1, hru]
      by_contra hnz
      have hin := (hiff u.id).mp (by omega)
      have hv5 := hv.2
      rw [hvid] at hv5
      simp [hin] at hv5

/-- Witness for C5: expiring session 1 with three enrolled students and one
`present` record yields exactly one row per student (1 present + 2 absent). -/
theorem c5_closeout_exactly_one_witness :
    attCountL (((expireSessionRoute db5 1500 1).2).attendance) 1 uStu2.id = 1 ∧
    attCountL (((expireSessionRoute db5 1500 1).2).attendance) 1 uStu3.id = 1 ∧
    attCountL (((expireSessionRoute db5 1500 1).2).attendance) 1 uStu4.id = 1 :=
  ⟨((c5_closeout_exactly_one db5 1500 1 (by decide) (by decide) (by decide)
      (by decide)) uStu2 (by decide) (by decide)).1,
   ((c5_closeout_exactly_one db5 1500 1 (by decide) (by decide) (by decide)
      (by decide)) uStu3 (by decide) (by decide)).1,
   ((c5_closeout_exactly_one db5 1500 1 (by decide) (by decide) (by decide)
      (by decide)) uStu4 (by decide) (by decide)).1⟩
